import Mathlib

/-!
Verification of the password generator core of `src/main.py`
(`PasswordGenerator.generate_password` and
`PasswordGenerator._password_meets_requirements`), shallowly embedded.

Randomness (`secrets.choice(chars)`) is modelled by a stream
`rnd : Nat → Nat`: the k-th draw selects `chars[rnd k % chars.length]`.
Every sequence of actual random draws corresponds to some such stream, and
every stream corresponds to a possible sequence of draws.  The unbounded
rejection-sampling `while` loop is modelled with a fuel parameter bounding
the number of attempts; the result `timeout` means the loop was still
running when the fuel ran out, so "the loop never terminates" is rendered
as "for every fuel the result is `timeout`".

Python strings are embedded as `List Char`; `c in s` is list membership,
string concatenation `+=` is list append, and the truthiness test
`if custom_special:` is "the option is `some` of a non-empty list".
-/

namespace PassGen

/-- `string.ascii_lowercase` (src/main.py line 18). -/
def lowercase_chars : List Char := "abcdefghijklmnopqrstuvwxyz".toList

/-- `string.ascii_uppercase` (src/main.py line 19). -/
def uppercase_chars : List Char := "ABCDEFGHIJKLMNOPQRSTUVWXYZ".toList

/-- `string.digits` (src/main.py line 20). -/
def digit_chars : List Char := "0123456789".toList

/-- The built-in default special set (src/main.py line 21), the Python
literal `"!@#$%^&*()-_=+[{]}\\|;:'\",<.>/?"`.  The characters that the
house style of this file avoids writing literally are given by code point:
94 `^`, 123 and 125 the curly braces, 92 the backslash, 39 the single
quote, 34 the double quote. -/
def special_chars : List Char :=
  ['!', '@', '#', '$', '%', Char.ofNat 94, '&', '*', '(', ')', '-', '_',
   '=', '+', '[', Char.ofNat 123, ']', Char.ofNat 125, Char.ofNat 92,
   '|', ';', ':', Char.ofNat 39, Char.ofNat 34, ',', '<', '.', '>', '/', '?']

/-- The special set actually used, following Python truthiness: both in
`generate_password` (lines 48-51) and in `_password_meets_requirements`
(line 89) the test `if custom_special:` selects the custom set only when
it is a present, non-empty string, and otherwise falls back to the
default `self.special_chars`. -/
def effective_special (custom_special : Option (List Char)) : List Char :=
  match custom_special with
  | none => special_chars
  | some l => if l.isEmpty then special_chars else l

/-- The character pool `chars` assembled by `generate_password`
(src/main.py lines 39-51): concatenation of the selected class ranges,
with the special slot resolved by `effective_special`. -/
def buildChars (use_lowercase use_uppercase use_digits use_special : Bool)
    (custom_special : Option (List Char)) : List Char :=
  (if use_lowercase then lowercase_chars else []) ++
  (if use_uppercase then uppercase_chars else []) ++
  (if use_digits then digit_chars else []) ++
  (if use_special then effective_special custom_special else [])

/-- `PasswordGenerator._password_meets_requirements`
(src/main.py lines 76-93): the password is rejected when a selected class
has no representative in it; the special class is checked against
`custom_special if custom_special else self.special_chars`. -/
def password_meets_requirements (password : List Char)
    (use_lowercase use_uppercase use_digits use_special : Bool)
    (custom_special : Option (List Char)) : Bool :=
  (!use_lowercase || password.any (fun c => lowercase_chars.contains c)) &&
  (!use_uppercase || password.any (fun c => uppercase_chars.contains c)) &&
  (!use_digits || password.any (fun c => digit_chars.contains c)) &&
  (!use_special ||
    password.any (fun c => (effective_special custom_special).contains c))

/-- One draw of the loop body
`''.join(secrets.choice(chars) for _ in range(length))`
(src/main.py lines 58 and 68): `len` independent uniform choices from
`chars`, the i-th taken at stream position `off + i`. -/
def drawString (chars : List Char) (len : Nat) (rnd : Nat → Nat)
    (off : Nat) : List Char :=
  (List.range len).map (fun i => chars.getD (rnd (off + i) % chars.length) 'a')

/-- Outcome of a call to `generate_password`: the `ValueError` of line 55,
a returned password, or fuel exhaustion (the rejection loop still
running). -/
inductive GenResult where
  | err : GenResult
  | ok : List Char → GenResult
  | timeout : GenResult
deriving DecidableEq

/-- The rejection-sampling loop of src/main.py lines 58-73: draw a
password, return it if it meets the requirements, otherwise redraw.
`fuel` bounds the number of attempts. -/
def attemptLoop (chars : List Char) (len : Nat)
    (use_lowercase use_uppercase use_digits use_special : Bool)
    (custom_special : Option (List Char)) (rnd : Nat → Nat) :
    Nat → Nat → GenResult
  | _, 0 => GenResult.timeout
  | off, fuel + 1 =>
    let pw := drawString chars len rnd off
    if password_meets_requirements pw use_lowercase use_uppercase use_digits
        use_special custom_special
    then GenResult.ok pw
    else attemptLoop chars len use_lowercase use_uppercase use_digits
        use_special custom_special rnd (off + len) (fuel)

/-- `PasswordGenerator.generate_password` (src/main.py lines 23-74):
assemble the pool, raise `ValueError` when it is empty, otherwise run the
rejection-sampling loop.  `length` is a Python `int`; `range(length)` is
empty for non-positive `length`, hence the `Int.toNat` coercion. -/
def generate_password (length : Int)
    (use_lowercase use_uppercase use_digits use_special : Bool)
    (custom_special : Option (List Char)) (rnd : Nat → Nat)
    (fuel : Nat) : GenResult :=
  let chars := buildChars use_lowercase use_uppercase use_digits use_special
    custom_special
  if chars.isEmpty then GenResult.err
  else attemptLoop chars length.toNat use_lowercase use_uppercase use_digits
    use_special custom_special rnd 0 fuel

/-! ## Helper lemmas -/

theorem effective_special_ne_nil (cs : Option (List Char)) :
    effective_special cs ≠ [] := by
  match cs with
  | none => simp [effective_special, special_chars]
  | some l =>
    simp only [effective_special]
    by_cases h : l.isEmpty
    · simp [h, special_chars]
    · simpa [h] using by simpa [List.isEmpty_iff] using h

theorem length_drawString (chars : List Char) (len : Nat) (rnd : Nat → Nat)
    (off : Nat) : (drawString chars len rnd off).length = len := by
  simp [drawString]

theorem mem_drawString (chars : List Char) (len : Nat) (rnd : Nat → Nat)
    (off : Nat) (hne : chars ≠ []) :
    ∀ c ∈ drawString chars len rnd off, c ∈ chars := by
  intro c hc
  simp only [drawString, List.mem_map] at hc
  obtain ⟨i, _, rfl⟩ := hc
  have hlt : rnd (off + i) % chars.length < chars.length :=
    Nat.mod_lt _ (List.length_pos.mpr hne)
  rw [List.getD_eq_getElem chars 'a' hlt]
  exact List.getElem_mem hlt

theorem meets_requirements_iff (pw : List Char)
    (f1 f2 f3 f4 : Bool) (cs : Option (List Char)) :
    password_meets_requirements pw f1 f2 f3 f4 cs = true ↔
      ((f1 = true → ∃ c ∈ pw, c ∈ lowercase_chars) ∧
       (f2 = true → ∃ c ∈ pw, c ∈ uppercase_chars) ∧
       (f3 = true → ∃ c ∈ pw, c ∈ digit_chars) ∧
       (f4 = true → ∃ c ∈ pw, c ∈ effective_special cs)) := by
  cases f1 <;> cases f2 <;> cases f3 <;> cases f4 <;>
    simp [password_meets_requirements, List.any_eq_true, and_assoc]

theorem mem_buildChars (f1 f2 f3 f4 : Bool) (cs : Option (List Char))
    (c : Char) :
    c ∈ buildChars f1 f2 f3 f4 cs ↔
      ((f1 = true ∧ c ∈ lowercase_chars) ∨
       (f2 = true ∧ c ∈ uppercase_chars) ∨
       (f3 = true ∧ c ∈ digit_chars) ∨
       (f4 = true ∧ c ∈ effective_special cs)) := by
  cases f1 <;> cases f2 <;> cases f3 <;> cases f4 <;>
    simp [buildChars, List.mem_append]

theorem buildChars_eq_nil_iff (f1 f2 f3 f4 : Bool) (cs : Option (List Char)) :
    buildChars f1 f2 f3 f4 cs = [] ↔
      (f1 = false ∧ f2 = false ∧ f3 = false ∧ f4 = false) := by
  cases f1 <;> cases f2 <;> cases f3 <;> cases f4 <;>
    simp [buildChars, lowercase_chars, uppercase_chars, digit_chars,
      effective_special_ne_nil]

theorem attemptLoop_ok (chars : List Char) (len : Nat)
    (f1 f2 f3 f4 : Bool) (cs : Option (List Char)) (rnd : Nat → Nat) :
    ∀ fuel off pw,
      attemptLoop chars len f1 f2 f3 f4 cs rnd off fuel = GenResult.ok pw →
      (∃ o, pw = drawString chars len rnd o) ∧
      password_meets_requirements pw f1 f2 f3 f4 cs = true := by
  intro fuel
  induction fuel with
  | zero => intro off pw h; simp [attemptLoop] at h
  | succ n ih =>
    intro off pw h
    simp only [attemptLoop] at h
    by_cases hreq : password_meets_requirements (drawString chars len rnd off)
        f1 f2 f3 f4 cs
    · rw [if_pos hreq] at h
      cases h
      exact ⟨⟨off, rfl⟩, hreq⟩
    · rw [if_neg hreq] at h
      exact ih (off + len) pw h

theorem generate_password_ok (length : Int) (f1 f2 f3 f4 : Bool)
    (cs : Option (List Char)) (rnd : Nat → Nat) (fuel : Nat) (pw : List Char)
    (h : generate_password length f1 f2 f3 f4 cs rnd fuel = GenResult.ok pw) :
    buildChars f1 f2 f3 f4 cs ≠ [] ∧
    (∃ o, pw = drawString (buildChars f1 f2 f3 f4 cs) length.toNat rnd o) ∧
    password_meets_requirements pw f1 f2 f3 f4 cs = true := by
  simp only [generate_password] at h
  by_cases hne : (buildChars f1 f2 f3 f4 cs).isEmpty
  · rw [if_pos hne] at h; cases h
  · rw [if_neg hne] at h
    refine ⟨by simpa [List.isEmpty_iff] using hne, ?_⟩
    exact attemptLoop_ok _ _ _ _ _ _ _ _ fuel 0 pw h

theorem attemptLoop_timeout (chars : List Char) (len : Nat)
    (f1 f2 f3 f4 : Bool) (cs : Option (List Char)) (rnd : Nat → Nat)
    (hrej : ∀ off, password_meets_requirements (drawString chars len rnd off)
      f1 f2 f3 f4 cs = false) :
    ∀ fuel off,
      attemptLoop chars len f1 f2 f3 f4 cs rnd off fuel = GenResult.timeout := by
  intro fuel
  induction fuel with
  | zero => intro off; simp [attemptLoop]
  | succ n ih =>
    intro off
    simp only [attemptLoop, hrej off, if_neg]
    exact ih (off + len)

theorem attemptLoop_ne_err (chars : List Char) (len : Nat)
    (f1 f2 f3 f4 : Bool) (cs : Option (List Char)) (rnd : Nat → Nat) :
    ∀ fuel off,
      attemptLoop chars len f1 f2 f3 f4 cs rnd off fuel ≠ GenResult.err := by
  intro fuel
  induction fuel with
  | zero => intro off h; simp [attemptLoop] at h
  | succ n ih =>
    intro off h
    simp only [attemptLoop] at h
    by_cases hreq : password_meets_requirements (drawString chars len rnd off)
        f1 f2 f3 f4 cs
    · rw [if_pos hreq] at h; cases h
    · rw [if_neg hreq] at h; exact ih (off + len) h

theorem disjoint_lower_upper :
    ∀ c ∈ lowercase_chars, c ∉ uppercase_chars := by decide

theorem disjoint_lower_digit :
    ∀ c ∈ lowercase_chars, c ∉ digit_chars := by decide

theorem disjoint_upper_digit :
    ∀ c ∈ uppercase_chars, c ∉ digit_chars := by decide

theorem effective_special_some_ne_nil (l : List Char) (h : l ≠ []) :
    effective_special (some l) = l := by
  simp [effective_special, List.isEmpty_iff, h]

theorem password_meets_requirements_congr (f1 f2 f3 f4 : Bool)
    (cs1 cs2 : Option (List Char))
    (hes : effective_special cs1 = effective_special cs2) (pw : List Char) :
    password_meets_requirements pw f1 f2 f3 f4 cs1 =
      password_meets_requirements pw f1 f2 f3 f4 cs2 := by
  simp [password_meets_requirements, hes]

theorem buildChars_congr (f1 f2 f3 f4 : Bool) (cs1 cs2 : Option (List Char))
    (hes : effective_special cs1 = effective_special cs2) :
    buildChars f1 f2 f3 f4 cs1 = buildChars f1 f2 f3 f4 cs2 := by
  simp [buildChars, hes]

theorem attemptLoop_congr (chars : List Char) (len : Nat)
    (f1 f2 f3 f4 : Bool) (cs1 cs2 : Option (List Char)) (rnd : Nat → Nat)
    (hpred : ∀ pw, password_meets_requirements pw f1 f2 f3 f4 cs1 =
      password_meets_requirements pw f1 f2 f3 f4 cs2) :
    ∀ fuel off, attemptLoop chars len f1 f2 f3 f4 cs1 rnd off fuel =
      attemptLoop chars len f1 f2 f3 f4 cs2 rnd off fuel := by
  intro fuel
  induction fuel with
  | zero => intro off; simp [attemptLoop]
  | succ n ih =>
    intro off
    simp only [attemptLoop, hpred]
    by_cases h : password_meets_requirements (drawString chars len rnd off)
        f1 f2 f3 f4 cs2
    · simp [h]
    · simp [h, ih (off + len)]

/-! ## Claims -/

/-- C1: for every configuration with at least one inclusion flag true and
length ≥ 1, whenever `generate_password` returns a password, that password
contains at least one character from the class of every flag set to true;
for the special class, membership is in the custom special string when one
is supplied non-empty, otherwise in the built-in default special set
(`effective_special`). -/
theorem C1_password_includes_each_selected_class (length : Int)
    (use_lowercase use_uppercase use_digits use_special : Bool)
    (custom_special : Option (List Char)) (rnd : Nat → Nat) (fuel : Nat)
    (pw : List Char)
    (hflag : use_lowercase = true ∨ use_uppercase = true ∨
      use_digits = true ∨ use_special = true)
    (hlen : 1 ≤ length)
    (h : generate_password length use_lowercase use_uppercase use_digits
      use_special custom_special rnd fuel = GenResult.ok pw) :
    (use_lowercase = true → ∃ c ∈ pw, c ∈ lowercase_chars) ∧
    (use_uppercase = true → ∃ c ∈ pw, c ∈ uppercase_chars) ∧
    (use_digits = true → ∃ c ∈ pw, c ∈ digit_chars) ∧
    (use_special = true → ∃ c ∈ pw, c ∈ effective_special custom_special) :=
  (meets_requirements_iff pw use_lowercase use_uppercase use_digits
    use_special custom_special).mp
    (generate_password_ok _ _ _ _ _ _ _ _ _ h).2.2

theorem C1_witness : ∃ c ∈ (['0'] : List Char), c ∈ digit_chars :=
  (C1_password_includes_each_selected_class 1 false false true false none
    (fun _ => 0) 1 ['0'] (Or.inr (Or.inr (Or.inl rfl))) (by decide)
    (by decide)).2.2.1 rfl

/-- C2: for every configuration with at least one inclusion flag true and
length ≥ 1, whenever `generate_password` returns, the password has exactly
`length` characters. -/
theorem C2_password_has_exact_length (length : Int)
    (use_lowercase use_uppercase use_digits use_special : Bool)
    (custom_special : Option (List Char)) (rnd : Nat → Nat) (fuel : Nat)
    (pw : List Char)
    (hflag : use_lowercase = true ∨ use_uppercase = true ∨
      use_digits = true ∨ use_special = true)
    (hlen : 1 ≤ length)
    (h : generate_password length use_lowercase use_uppercase use_digits
      use_special custom_special rnd fuel = GenResult.ok pw) :
    pw.length = length.toNat ∧ (pw.length : Int) = length := by
  obtain ⟨-, ⟨o, rfl⟩, -⟩ := generate_password_ok _ _ _ _ _ _ _ _ _ h
  refine ⟨length_drawString _ _ _ _, ?_⟩
  rw [length_drawString]
  exact Int.toNat_of_nonneg (le_trans zero_le_one hlen)

theorem C2_witness : (['0'] : List Char).length = (1 : Int).toNat ∧
    ((['0'] : List Char).length : Int) = 1 :=
  C2_password_has_exact_length 1 false false true false none (fun _ => 0) 1
    ['0'] (Or.inr (Or.inr (Or.inl rfl))) (by decide) (by decide)

/-- C3: for every configuration with at least one inclusion flag true and
length ≥ 1, every character of the returned password belongs to the union
of the class ranges whose flags are true, with the custom special string
substituted for the default special range when supplied non-empty
(`effective_special`). -/
theorem C3_password_chars_from_pool (length : Int)
    (use_lowercase use_uppercase use_digits use_special : Bool)
    (custom_special : Option (List Char)) (rnd : Nat → Nat) (fuel : Nat)
    (pw : List Char)
    (hflag : use_lowercase = true ∨ use_uppercase = true ∨
      use_digits = true ∨ use_special = true)
    (hlen : 1 ≤ length)
    (h : generate_password length use_lowercase use_uppercase use_digits
      use_special custom_special rnd fuel = GenResult.ok pw) :
    ∀ c ∈ pw,
      (use_lowercase = true ∧ c ∈ lowercase_chars) ∨
      (use_uppercase = true ∧ c ∈ uppercase_chars) ∨
      (use_digits = true ∧ c ∈ digit_chars) ∨
      (use_special = true ∧ c ∈ effective_special custom_special) := by
  obtain ⟨hne, ⟨o, rfl⟩, -⟩ := generate_password_ok _ _ _ _ _ _ _ _ _ h
  intro c hc
  exact (mem_buildChars _ _ _ _ _ c).mp
    (mem_drawString _ _ _ _ hne c hc)

theorem C3_witness :
    (false = true ∧ '0' ∈ lowercase_chars) ∨
    (false = true ∧ '0' ∈ uppercase_chars) ∨
    (true = true ∧ '0' ∈ digit_chars) ∨
    (false = true ∧ '0' ∈ effective_special none) :=
  C3_password_chars_from_pool 1 false false true false none (fun _ => 0) 1
    ['0'] (Or.inr (Or.inr (Or.inl rfl))) (by decide) (by decide) '0'
    (List.mem_singleton.mpr rfl)

/-- C4: `generate_password` raises exactly when the assembled pool is
empty; the pool is empty exactly when all four inclusion flags are false;
hence with at least one flag true the error branch is unreachable. -/
theorem C4_error_iff_empty_pool (length : Int)
    (use_lowercase use_uppercase use_digits use_special : Bool)
    (custom_special : Option (List Char)) (rnd : Nat → Nat) (fuel : Nat) :
    (generate_password length use_lowercase use_uppercase use_digits
       use_special custom_special rnd fuel = GenResult.err ↔
       buildChars use_lowercase use_uppercase use_digits use_special
         custom_special = []) ∧
    (buildChars use_lowercase use_uppercase use_digits use_special
       custom_special = [] ↔
       (use_lowercase = false ∧ use_uppercase = false ∧
        use_digits = false ∧ use_special = false)) ∧
    ((use_lowercase = true ∨ use_uppercase = true ∨
      use_digits = true ∨ use_special = true) →
      generate_password length use_lowercase use_uppercase use_digits
        use_special custom_special rnd fuel ≠ GenResult.err) := by
  have hmain : generate_password length use_lowercase use_uppercase
      use_digits use_special custom_special rnd fuel = GenResult.err ↔
      buildChars use_lowercase use_uppercase use_digits use_special
        custom_special = [] := by
    simp only [generate_password]
    by_cases hne : (buildChars use_lowercase use_uppercase use_digits
        use_special custom_special).isEmpty
    · simp [hne, List.isEmpty_iff.mp hne]
    · simp only [hne, if_false, Bool.false_eq_true]
      constructor
      · intro h; exact absurd h (attemptLoop_ne_err _ _ _ _ _ _ _ _ _ _)
      · intro h; exact absurd (List.isEmpty_iff.mpr h) hne
  refine ⟨hmain, buildChars_eq_nil_iff _ _ _ _ _, ?_⟩
  intro hflag herr
  have := (buildChars_eq_nil_iff _ _ _ _ custom_special).mp (hmain.mp herr)
  rcases hflag with h | h | h | h <;> simp [h] at this

theorem C4_witness :
    generate_password 12 true false false false none (fun _ => 0) 1 ≠
      GenResult.err :=
  (C4_error_iff_empty_pool 12 true false false false none (fun _ => 0)
    1).2.2 (Or.inl rfl)

/-- C5: with the special flag true and a non-empty custom special string,
the default special set does not contribute to the pool: every password
character outside every other enabled class's range lies in the custom
string, and no password character of the default special set lies outside
both the custom string and every other enabled class's range. -/
theorem C5_custom_special_excludes_default (length : Int)
    (use_lowercase use_uppercase use_digits : Bool) (l : List Char)
    (rnd : Nat → Nat) (fuel : Nat) (pw : List Char)
    (hne : l ≠ [])
    (h : generate_password length use_lowercase use_uppercase use_digits
      true (some l) rnd fuel = GenResult.ok pw) :
    (∀ c ∈ pw,
      ¬((use_lowercase = true ∧ c ∈ lowercase_chars) ∨
        (use_uppercase = true ∧ c ∈ uppercase_chars) ∨
        (use_digits = true ∧ c ∈ digit_chars)) → c ∈ l) ∧
    (¬ ∃ c ∈ pw, c ∈ special_chars ∧ c ∉ l ∧
      ¬((use_lowercase = true ∧ c ∈ lowercase_chars) ∨
        (use_uppercase = true ∧ c ∈ uppercase_chars) ∨
        (use_digits = true ∧ c ∈ digit_chars))) := by
  obtain ⟨hpne, ⟨o, rfl⟩, -⟩ := generate_password_ok _ _ _ _ _ _ _ _ _ h
  have hmem : ∀ c ∈ drawString (buildChars use_lowercase use_uppercase
      use_digits true (some l)) length.toNat rnd o,
      ¬((use_lowercase = true ∧ c ∈ lowercase_chars) ∨
        (use_uppercase = true ∧ c ∈ uppercase_chars) ∨
        (use_digits = true ∧ c ∈ digit_chars)) → c ∈ l := by
    intro c hc hnot
    have := (mem_buildChars _ _ _ _ _ c).mp
      (mem_drawString _ _ _ _ hpne c hc)
    rw [effective_special_some_ne_nil l hne] at this
    rcases this with h' | h' | h' | h'
    · exact absurd (Or.inl h') hnot
    · exact absurd (Or.inr (Or.inl h')) hnot
    · exact absurd (Or.inr (Or.inr h')) hnot
    · exact h'.2
  refine ⟨hmem, ?_⟩
  rintro ⟨c, hc, -, hcl, hnot⟩
  exact hcl (hmem c hc hnot)

theorem C5_witness : ('!' : Char) ∈ (['!'] : List Char) :=
  (C5_custom_special_excludes_default 1 false false false ['!']
    (fun _ => 0) 1 ['!'] (by decide) (by decide)).1 '!'
    (List.mem_singleton.mpr rfl) (by simp)

/-- C6: with the special flag true and the custom special string absent or
empty, `generate_password` behaves exactly as if the built-in default
special set had been requested: the default set is what the special slot
resolves to, it is the part appended to the pool, the special-presence
requirement is checked against it, and the overall result equals the one
obtained by supplying the default set explicitly. -/
theorem C6_empty_custom_falls_back_to_default (length : Int)
    (use_lowercase use_uppercase use_digits : Bool)
    (custom_special : Option (List Char)) (rnd : Nat → Nat) (fuel : Nat)
    (habs : custom_special = none ∨ custom_special = some []) :
    effective_special custom_special = special_chars ∧
    buildChars use_lowercase use_uppercase use_digits true custom_special =
      buildChars use_lowercase use_uppercase use_digits false custom_special
        ++ special_chars ∧
    (∀ pw, password_meets_requirements pw use_lowercase use_uppercase
        use_digits true custom_special =
      (password_meets_requirements pw use_lowercase use_uppercase use_digits
        false custom_special &&
       pw.any (fun c => special_chars.contains c))) ∧
    generate_password length use_lowercase use_uppercase use_digits true
        custom_special rnd fuel =
      generate_password length use_lowercase use_uppercase use_digits true
        (some special_chars) rnd fuel := by
  have hes : effective_special custom_special = special_chars := by
    rcases habs with rfl | rfl <;> simp [effective_special]
  have hes2 : effective_special custom_special =
      effective_special (some special_chars) := by
    rw [hes, effective_special_some_ne_nil]
    simp [special_chars]
  refine ⟨hes, ?_, ?_, ?_⟩
  · simp [buildChars, hes]
  · intro pw
    simp [password_meets_requirements, hes, Bool.and_assoc]
  · simp only [generate_password,
      buildChars_congr _ _ _ _ _ _ hes2]
    exact if_congr Iff.rfl rfl
      (attemptLoop_congr _ _ _ _ _ _ _ _ _
        (password_meets_requirements_congr _ _ _ _ _ _ hes2) fuel 0)

theorem C6_witness : effective_special none = special_chars :=
  (C6_empty_custom_falls_back_to_default 4 true true true none
    (fun _ => 0) 1 (Or.inl rfl)).1

/-- C7: with length 1 and the lowercase, uppercase and digit flags all set
(pairwise disjoint classes), no string of length 1 meets the requirements,
so the rejection-sampling loop never terminates: for every stream of
random draws and every fuel bound the loop is still running. -/
theorem C7_length_one_three_classes_never_terminates
    (custom_special : Option (List Char)) (rnd : Nat → Nat) :
    (∀ pw : List Char, pw.length = 1 →
      password_meets_requirements pw true true true false custom_special =
        false) ∧
    (∀ fuel, generate_password 1 true true true false custom_special rnd
      fuel = GenResult.timeout) := by
  have hrej : ∀ pw : List Char, pw.length = 1 →
      password_meets_requirements pw true true true false custom_special =
        false := by
    intro pw hlen
    rcases List.length_eq_one.mp hlen with ⟨c, rfl⟩
    by_contra hne
    rw [Bool.not_eq_false] at hne
    obtain ⟨hl, hu, -, -⟩ := (meets_requirements_iff _ _ _ _ _ _).mp hne
    obtain ⟨x, hx, hxl⟩ := hl rfl
    obtain ⟨y, hy, hyu⟩ := hu rfl
    rw [List.mem_singleton.mp hx] at hxl
    rw [List.mem_singleton.mp hy] at hyu
    exact disjoint_lower_upper c hxl hyu
  refine ⟨hrej, ?_⟩
  intro fuel
  have hpne : ¬ (buildChars true true true false custom_special).isEmpty := by
    simp [List.isEmpty_iff, buildChars_eq_nil_iff]
  simp only [generate_password, hpne, if_false, Bool.false_eq_true]
  exact attemptLoop_timeout _ _ _ _ _ _ _ _
    (fun off => hrej _ (length_drawString _ _ _ _)) fuel 0

theorem C7_witness :
    password_meets_requirements ['a'] true true true false none = false ∧
    generate_password 1 true true true false none (fun _ => 0) 3 =
      GenResult.timeout :=
  ⟨(C7_length_one_three_classes_never_terminates none (fun _ => 0)).1
    ['a'] rfl,
   (C7_length_one_three_classes_never_terminates none (fun _ => 0)).2 3⟩

/-- C8: with length 4 and only the digit flag true, the pool is exactly
the digit range, the very first drawn string passes the requirement check,
so `generate_password` terminates with no redraw for every stream of
random draws — one attempt of fuel suffices — and the output is the first
draw: 4 characters, all digits. -/
theorem C8_digits_only_terminates_first_draw (rnd : Nat → Nat) (fuel : Nat)
    (hfuel : 1 ≤ fuel) :
    generate_password 4 false false true false none rnd fuel =
      GenResult.ok (drawString digit_chars 4 rnd 0) ∧
    (drawString digit_chars 4 rnd 0).length = 4 ∧
    (∀ c ∈ drawString digit_chars 4 rnd 0, c ∈ digit_chars) := by
  have hpool : buildChars false false true false none = digit_chars := by
    simp [buildChars]
  have hdne : digit_chars ≠ [] := by simp [digit_chars]
  have hmem : ∀ c ∈ drawString digit_chars 4 rnd 0, c ∈ digit_chars :=
    mem_drawString _ _ _ _ hdne
  have hreq : password_meets_requirements (drawString digit_chars 4 rnd 0)
      false false true false none = true := by
    refine (meets_requirements_iff _ _ _ _ _ _).mpr
      ⟨by simp, by simp, ?_, by simp⟩
    intro _
    have hne : drawString digit_chars 4 rnd 0 ≠ [] := by
      intro hnil
      have := length_drawString digit_chars 4 rnd 0
      rw [hnil] at this
      simp at this
    obtain ⟨c, hc⟩ := List.exists_mem_of_ne_nil _ hne
    exact ⟨c, hc, hmem c hc⟩
  obtain ⟨n, rfl⟩ : ∃ n, fuel = n + 1 :=
    ⟨fuel - 1, (Nat.succ_pred_eq_of_pos hfuel).symm⟩
  refine ⟨?_, length_drawString _ _ _ _, hmem⟩
  simp only [generate_password, hpool]
  rw [if_neg (by simp [digit_chars])]
  simp only [attemptLoop]
  rw [show ((4 : Int)).toNat = 4 from rfl, if_pos hreq]

theorem C8_witness :
    generate_password 4 false false true false none (fun _ => 0) 1 =
      GenResult.ok (drawString digit_chars 4 (fun _ => 0) 0) ∧
    (drawString digit_chars 4 (fun _ => 0) 0).length = 4 :=
  ⟨(C8_digits_only_terminates_first_draw (fun _ => 0) 1 (Nat.le_refl 1)).1,
   (C8_digits_only_terminates_first_draw (fun _ => 0) 1 (Nat.le_refl 1)).2.1⟩

/-- C9: when the special flag is false, the `custom_special` argument has
no effect: for any two values of it, the pool, the acceptance predicate
and the result of `generate_password` (on the same length, flags, draws
and fuel) are identical. -/
theorem C9_custom_special_ignored_without_flag (length : Int)
    (use_lowercase use_uppercase use_digits : Bool)
    (cs1 cs2 : Option (List Char)) (rnd : Nat → Nat) (fuel : Nat) :
    buildChars use_lowercase use_uppercase use_digits false cs1 =
      buildChars use_lowercase use_uppercase use_digits false cs2 ∧
    (∀ pw, password_meets_requirements pw use_lowercase use_uppercase
        use_digits false cs1 =
      password_meets_requirements pw use_lowercase use_uppercase use_digits
        false cs2) ∧
    generate_password length use_lowercase use_uppercase use_digits false
        cs1 rnd fuel =
      generate_password length use_lowercase use_uppercase use_digits false
        cs2 rnd fuel := by
  have hpool : buildChars use_lowercase use_uppercase use_digits false cs1 =
      buildChars use_lowercase use_uppercase use_digits false cs2 := by
    simp [buildChars]
  have hpred : ∀ pw, password_meets_requirements pw use_lowercase
      use_uppercase use_digits false cs1 =
      password_meets_requirements pw use_lowercase use_uppercase use_digits
        false cs2 := by
    intro pw; simp [password_meets_requirements]
  refine ⟨hpool, hpred, ?_⟩
  simp only [generate_password, hpool]
  exact if_congr Iff.rfl rfl
    (attemptLoop_congr _ _ _ _ _ _ _ _ _ hpred fuel 0)

/-- C10: `generate_password` does not validate `length`: for every
length ≤ 0 with at least one inclusion flag true, each draw is the empty
string, the empty string fails the requirement check of every set flag,
and the rejection loop redraws forever — for every fuel bound the result
is still `timeout`. -/
theorem C10_nonpositive_length_never_terminates (length : Int)
    (use_lowercase use_uppercase use_digits use_special : Bool)
    (custom_special : Option (List Char)) (rnd : Nat → Nat)
    (hflag : use_lowercase = true ∨ use_uppercase = true ∨
      use_digits = true ∨ use_special = true)
    (hlen : length ≤ 0) :
    (∀ off, drawString (buildChars use_lowercase use_uppercase use_digits
      use_special custom_special) length.toNat rnd off = []) ∧
    password_meets_requirements [] use_lowercase use_uppercase use_digits
      use_special custom_special = false ∧
    (∀ fuel, generate_password length use_lowercase use_uppercase use_digits
      use_special custom_special rnd fuel = GenResult.timeout) := by
  have htn : length.toNat = 0 := Int.toNat_of_nonpos hlen
  have hdraw : ∀ off, drawString (buildChars use_lowercase use_uppercase
      use_digits use_special custom_special) length.toNat rnd off = [] := by
    intro off; simp [drawString, htn]
  have hreq : password_meets_requirements [] use_lowercase use_uppercase
      use_digits use_special custom_special = false := by
    by_contra hne
    rw [Bool.not_eq_false] at hne
    obtain ⟨hl, hu, hd, hs⟩ := (meets_requirements_iff _ _ _ _ _ _).mp hne
    rcases hflag with h | h | h | h
    · obtain ⟨x, hx, -⟩ := hl h; exact List.not_mem_nil x hx
    · obtain ⟨x, hx, -⟩ := hu h; exact List.not_mem_nil x hx
    · obtain ⟨x, hx, -⟩ := hd h; exact List.not_mem_nil x hx
    · obtain ⟨x, hx, -⟩ := hs h; exact List.not_mem_nil x hx
  refine ⟨hdraw, hreq, ?_⟩
  intro fuel
  have hpne : ¬ (buildChars use_lowercase use_uppercase use_digits
      use_special custom_special).isEmpty := by
    rw [List.isEmpty_iff, buildChars_eq_nil_iff]
    rcases hflag with h | h | h | h <;> simp [h]
  simp only [generate_password, hpne, if_false, Bool.false_eq_true]
  refine attemptLoop_timeout _ _ _ _ _ _ _ _ ?_ fuel 0
  intro off
  rw [hdraw off]
  exact hreq

theorem C10_witness :
    password_meets_requirements [] true false false false none = false ∧
    generate_password 0 true false false false none (fun _ => 0) 5 =
      GenResult.timeout :=
  ⟨(C10_nonpositive_length_never_terminates 0 true false false false none
      (fun _ => 0) (Or.inl rfl) (by decide)).2.1,
   (C10_nonpositive_length_never_terminates 0 true false false false none
      (fun _ => 0) (Or.inl rfl) (by decide)).2.2 5⟩

end PassGen
